import Mathlib

/-
Verification of the ChittyOS Standard scaffolding installer
(`scripts/install.js`) and its dependency checker
(`scripts/check-dependencies.js`).

The JavaScript sources are shallowly embedded: each pipeline stage becomes a
pure Lean function from an explicit oracle of external outcomes (filesystem
probes, interactive answers, subprocess results) to the list of side effects
(`Event`s) it performs together with an optional JavaScript-style error.
File paths are written relative to the process working directory at launch.
-/

namespace ChittyStandard

/-! ## Environment detection (install.js, `detectEnvironment`, lines 43-59)

The runtime version gate is `nodeVersion.match(/^v(1[89]|[2-9]\d)/)`: the
installer throws unless the version string starts with `v` followed by `18`,
`19`, or a digit `2`-`9` followed by any digit. -/

/-- Direct translation of the test `/^v(1[89]|[2-9]\d)/.test s` from
install.js line 50, over the character list of the version string. -/
def versionCheckPasses (s : List Char) : Bool :=
  match s with
  | v :: c1 :: c2 :: _ =>
    v == 'v' &&
      ((c1 == '1' && (c2 == '8' || c2 == '9')) ||
       ((c1 == '2' || c1 == '3' || c1 == '4' || c1 == '5' ||
         c1 == '6' || c1 == '7' || c1 == '8' || c1 == '9') && c2.isDigit))
  | _ => false

/-- The character list of the runtime version string `v<major>.<minor>.<patch>`
(the shape of `process.version`), using the decimal rendering of core Lean. -/
def mkNodeVersion (major minor patch : Nat) : List Char :=
  'v' :: (Nat.toDigits 10 major ++
    '.' :: (Nat.toDigits 10 minor ++ '.' :: Nat.toDigits 10 patch))

/-! ## Configuration collection (install.js, `promptConfiguration`, lines 61-140) -/

/-- The `value` field of the four `installationType` choices (lines 80-85). -/
inductive InstallationType where
  | standard
  | minimal
  | full
  | custom
  deriving DecidableEq, Repr

/-- The `value` fields of the seven checkbox choices of the `apps` question
(lines 92-100). -/
def checkboxChoiceValues : List String :=
  ["chittyresolution", "chittychronicle", "chittyevidence", "chittyflow",
   "chittyintel", "chittytrace", "chittycloude-mcp"]

/-- The component list assigned for the `full` tier (lines 126-134). -/
def fullComponents : List String :=
  ["chittyresolution", "chittychronicle", "chittyevidence", "chittyflow",
   "chittyintel", "chittytrace", "chittycloude-mcp"]

/-- The answers the interactive session would produce: one value per prompt,
with `selectedApps` the subset the user would tick in the checkbox question
were it shown. -/
structure PromptInput where
  projectName : String
  installationType : InstallationType
  selectedApps : List String
  includeDatabase : Bool
  includeAuth : Bool
  includeDocker : Bool
  deriving DecidableEq, Repr

/-- The installer's `this.config` record after `promptConfiguration`. -/
structure InstallConfig where
  projectName : String
  installationType : InstallationType
  apps : List String
  includeDatabase : Bool
  includeAuth : Bool
  includeDocker : Bool
  deriving DecidableEq, Repr

/-- The `when` predicate of the `apps` checkbox question (line 101):
`answers.installationType === 'custom'`. -/
def appsQuestionWhen (t : InstallationType) : Bool :=
  t == InstallationType.custom

/-- `promptConfiguration` (lines 61-140): collect the answers (the checkbox
answer is present only when its `when` predicate held), then override
`config.apps` by the tier table for `full`, `standard` and `minimal`. -/
def promptConfiguration (inp : PromptInput) : InstallConfig :=
  let answersApps : Option (List String) :=
    if appsQuestionWhen inp.installationType then some inp.selectedApps else none
  let apps : List String :=
    match inp.installationType with
    | InstallationType.full => fullComponents
    | InstallationType.standard => ["chittyresolution", "chittychronicle"]
    | InstallationType.minimal => []
    | InstallationType.custom => answersApps.getD []
  { projectName := inp.projectName
    installationType := inp.installationType
    apps := apps
    includeDatabase := inp.includeDatabase
    includeAuth := inp.includeAuth
    includeDocker := inp.includeDocker }

/-! ## Side-effect model for the pipeline stages

Each stage is embedded as a pure function from a `World` — the oracle of all
external outcomes the stage consumes — to a `StageOut`: the ordered list of
side effects performed plus the JavaScript error it throws, if any. -/

/-- Contents of the files the installer writes, keeping the data the source
interpolates into each file (package.json name; the `apps` array and the
three `features` booleans of the generated `chitty.config.ts`). -/
inductive FileContent where
  | packageJson (name : String)
  | chittyConfig (apps : List String) (database authentication docker : Bool)
  | envFile
  | drizzleConfig
  | authConfig
  | dockerfile
  | dockerCompose
  | gitignore
  deriving DecidableEq, Repr

/-- The observable side effects of the installer, in program order. -/
inductive Event where
  | writeFile (path : String) (content : FileContent)
  | copyFile (src dst : String)
  | mkdir (path : String)
  | rmDir (path : String)
  | chdir (path : String)
  | exec (cmd : String)
  | warn (msg : String)
  deriving DecidableEq, Repr

/-- A JavaScript error value: its optional `code` property and `message`. -/
structure JsError where
  code : Option String
  message : String
  deriving DecidableEq, Repr

/-- Result of one stage: the side effects it performed before returning or
throwing, and the error it threw (`none` on normal return). -/
structure StageOut where
  events : List Event
  error : Option JsError
  deriving DecidableEq, Repr

/-- Outcome of one `fs.copyFile` call in `setupSharedDependencies`. -/
inductive CopyOutcome where
  | ok
  | enoent
  | other
  deriving DecidableEq, Repr

/-- Oracle of every external outcome the installer observes. -/
structure World where
  nodeVersion : List Char
  packageManager : String
  dirExists : Bool
  overwriteAnswer : Bool
  copyOutcome : String → CopyOutcome
  componentInstallFails : String → Bool
  sharedInstallFails : Bool
  bulkInstallFails : Bool
  gitInitFails : Bool

/-- Sequencing of `await` in `run` (lines 23-41): the second stage runs only
when the first returned without error. -/
def andThenStage (a b : StageOut) : StageOut :=
  match a.error with
  | none => { events := a.events ++ b.events, error := b.error }
  | some e => { events := a.events, error := some e }

/-- Does `hay` start with `needle`? -/
def charsLeadWith : List Char → List Char → Bool
  | [], _ => true
  | _ :: _, [] => false
  | a :: as, b :: bs => a == b && charsLeadWith as bs

/-- Substring containment on character lists. -/
def charsContain (needle : List Char) : List Char → Bool
  | [] => needle.isEmpty
  | c :: rest => charsLeadWith needle (c :: rest) || charsContain needle rest

/-- JavaScript `hay.includes(sub)` on strings. -/
def stringIncludes (hay sub : String) : Bool :=
  charsContain sub.data hay.data

/-- The package-manager add/install command string (lines 204, 261). -/
def installCmd (pm : String) : String :=
  if pm == "yarn" then "yarn add" else pm ++ " install"

/-- `detectEnvironment` (lines 43-59): throws unless the version string
passes the regex gate. -/
def detectEnvironment (w : World) : StageOut :=
  if versionCheckPasses w.nodeVersion then { events := [], error := none }
  else
    { events := []
      error := some { code := none, message := "Node.js 18.0.0 or higher is required" } }

/-- `path.join(process.cwd(), this.config.projectName)`, relative to the
launch working directory. -/
def projectPath (cfg : InstallConfig) : String :=
  cfg.projectName

/-- `checkExistingInstallation` (lines 142-172). The `try` block: `fs.access`
throws `ENOENT` when the directory is absent; otherwise the overwrite
confirmation is shown, declining throws `Error('Installation cancelled')`,
accepting removes the directory. The `catch` block rethrows only when the
error code differs from `ENOENT` AND the message does not contain
`'cancelled'`. -/
def checkExistingInstallation (cfg : InstallConfig) (w : World) : StageOut :=
  let tryBlock : StageOut :=
    if w.dirExists then
      if w.overwriteAnswer then
        { events := [Event.rmDir (projectPath cfg)], error := none }
      else
        { events := [], error := some { code := none, message := "Installation cancelled" } }
    else
      { events := []
        error := some { code := some "ENOENT", message := "no such file or directory" } }
  match tryBlock.error with
  | none => tryBlock
  | some e =>
    if e.code != some "ENOENT" && !(stringIncludes e.message "cancelled") then
      { events := tryBlock.events, error := some e }
    else
      { events := tryBlock.events, error := none }

/-- `installFramework` (lines 174-213): create the target directory, write
`package.json`, change into the directory, install the shared package. -/
def installFramework (cfg : InstallConfig) (w : World) : StageOut :=
  let pre : List Event :=
    [Event.mkdir (projectPath cfg),
     Event.writeFile (projectPath cfg ++ "/package.json")
       (FileContent.packageJson cfg.projectName),
     Event.chdir (projectPath cfg)]
  if w.sharedInstallFails then
    { events := pre, error := some { code := none, message := "framework install failed" } }
  else
    { events := pre ++ [Event.exec (installCmd w.packageManager ++ " @chittyos/shared")]
      error := none }

/-- The fixed copy list of `setupSharedDependencies` (lines 222-229). -/
def filesToCopy : List String :=
  ["tsconfig.json", "vite.config.ts", "tailwind.config.js",
   "postcss.config.js", ".eslintrc.json", ".prettierrc"]

/-- The per-file copy loop (lines 231-242): a copy whose error code is
`ENOENT` is swallowed and the loop continues; any other copy error is
rethrown, ending the loop. -/
def copyTemplates (w : World) : List String → StageOut
  | [] => { events := [], error := none }
  | f :: rest =>
    match w.copyOutcome f with
    | CopyOutcome.ok =>
      let r := copyTemplates w rest
      { events := Event.copyFile ("templates/" ++ f) f :: r.events, error := r.error }
    | CopyOutcome.enoent => copyTemplates w rest
    | CopyOutcome.other =>
      { events := [], error := some { code := some "EACCES", message := "copy failed" } }

/-- `setupSharedDependencies` (lines 215-252): run the copy loop, then create
the `src` and `public` directories. -/
def setupSharedDependencies (w : World) : StageOut :=
  let r := copyTemplates w filesToCopy
  match r.error with
  | none => { events := r.events ++ [Event.mkdir "src", Event.mkdir "public"], error := none }
  | some e => { events := r.events, error := some e }

/-- The per-component install loop of `configureIntegration` (lines 263-269):
a failing `execSync` is caught and turned into a console warning, the loop
continues. -/
def installApps (w : World) (pm : String) : List String → List Event
  | [] => []
  | app :: rest =>
    (if w.componentInstallFails app then
       Event.warn ("Could not install " ++ app ++ ", it may need manual setup")
     else
       Event.exec (installCmd pm ++ " @chittyapps/" ++ app)) :: installApps w pm rest

/-- `setupDatabase` (lines 315-333): writes `.env` and `drizzle.config.ts`. -/
def setupDatabase : List Event :=
  [Event.writeFile ".env" FileContent.envFile,
   Event.writeFile "drizzle.config.ts" FileContent.drizzleConfig]

/-- `setupAuthentication` (lines 335-350): creates `src/auth` and writes the
auth config module. -/
def setupAuthentication : List Event :=
  [Event.mkdir "src/auth",
   Event.writeFile "src/auth/config.ts" FileContent.authConfig]

/-- `generateDockerConfig` (lines 352-396): writes `Dockerfile` and
`docker-compose.yml`. -/
def generateDockerConfig : List Event :=
  [Event.writeFile "Dockerfile" FileContent.dockerfile,
   Event.writeFile "docker-compose.yml" FileContent.dockerCompose]

/-- `configureIntegration` (lines 254-313): install the selected components
(non-fatally), write the generated `src/chitty.config.ts` embedding
`this.config.apps` and the three feature booleans, then run each optional
sub-generator exactly when its toggle is set. -/
def configureIntegration (cfg : InstallConfig) (w : World) : StageOut :=
  let appEvents : List Event :=
    if cfg.apps.length > 0 then installApps w w.packageManager cfg.apps else []
  { events := appEvents ++
      Event.writeFile "src/chitty.config.ts"
        (FileContent.chittyConfig cfg.apps cfg.includeDatabase cfg.includeAuth
          cfg.includeDocker) ::
      ((if cfg.includeDatabase then setupDatabase else []) ++
       (if cfg.includeAuth then setupAuthentication else []) ++
       (if cfg.includeDocker then generateDockerConfig else []))
    error := none }

/-- `finalizeInstallation` (lines 398-431): bulk install (fatal on failure),
write `.gitignore`, then `git init` with a non-fatal warning on failure. -/
def finalizeInstallation (w : World) : StageOut :=
  if w.bulkInstallFails then
    { events := [], error := some { code := none, message := "bulk install failed" } }
  else
    { events :=
        [Event.exec (if w.packageManager == "yarn" then "yarn"
          else w.packageManager ++ " install"),
         Event.writeFile ".gitignore" FileContent.gitignore] ++
        (if w.gitInitFails then [Event.warn "Could not initialize git repository"]
         else [Event.exec "git init"])
      error := none }

/-- The `run` pipeline (lines 23-41): the stages in order, stopping at the
first error (which the top-level handler prints before `process.exit(1)`). -/
def runPipeline (inp : PromptInput) (w : World) : StageOut :=
  let cfg := promptConfiguration inp
  andThenStage (detectEnvironment w)
    (andThenStage (checkExistingInstallation cfg w)
      (andThenStage (installFramework cfg w)
        (andThenStage (setupSharedDependencies w)
          (andThenStage (configureIntegration cfg w) (finalizeInstallation w)))))

/-! ## Dependency checker (check-dependencies.js) -/

/-- Whether each required tool was found with a version satisfying its
requirement (the oracle for `execSync`/`process.version`/`semver`). -/
structure DepWorld where
  nodeSatisfied : Bool
  npmSatisfied : Bool
  gitSatisfied : Bool
  deriving DecidableEq, Repr

/-- `requiredDependencies` (check-dependencies.js lines 7-11). -/
def requiredDependencies : List (String × String) :=
  [("node", ">=18.0.0"), ("npm", ">=9.0.0"), ("git", ">=2.0.0")]

/-- `checkDependency` (lines 13-45): resolve the tool's version and test it
with `semver.satisfies`; any error (tool not found, unknown name) yields a
failure report. The oracle collapses lookup plus satisfaction per tool. -/
def checkDependency (w : DepWorld) (name : String) : Bool :=
  if name == "node" then w.nodeSatisfied
  else if name == "npm" then w.npmSatisfied
  else if name == "git" then w.gitSatisfied
  else false

/-- The main loop (lines 49-55): every entry is checked — the loop never
breaks — producing one pass/fail report per tool and the conjunction of the
results. -/
def depCheckLoop (w : DepWorld) : List (String × String) → List (String × Bool) × Bool
  | [] => ([], true)
  | d :: rest =>
    let ok := checkDependency w d.1
    let r := depCheckLoop w rest
    ((d.1, ok) :: r.1, ok && r.2)

/-- The final value of the `allDependenciesMet` flag. -/
def allDependenciesMet (w : DepWorld) : Bool :=
  (depCheckLoop w requiredDependencies).2

/-- The per-tool pass/fail reports printed by the run. -/
def dependencyReport (w : DepWorld) : List (String × Bool) :=
  (depCheckLoop w requiredDependencies).1

/-- The process exit code (lines 57-64). -/
def exitCode (w : DepWorld) : Nat :=
  if allDependenciesMet w then 0 else 1

/-! ## Helper observers and concrete oracles for the theorems -/

/-- Is the event a file write? -/
def isWriteEvent : Event → Bool
  | Event.writeFile _ _ => true
  | _ => false

/-- Is the event one produced by the per-component install loop (an install
subprocess for an `@chittyapps/` package, or the warning that replaces it)? -/
def isComponentInstallEvent : Event → Bool
  | Event.warn _ => true
  | Event.exec c => stringIncludes c "@chittyapps/"
  | _ => false

/-- Content of the first write to `path` in an event list, if any. -/
def writtenContent (path : String) : List Event → Option FileContent
  | [] => none
  | Event.writeFile p c :: rest =>
    if p == path then some c else writtenContent path rest
  | _ :: rest => writtenContent path rest

/-- An oracle where every external operation succeeds, the runtime is
`v20.0.0`, the package manager is npm and the target directory is absent. -/
def benignWorld : World where
  nodeVersion := mkNodeVersion 20 0 0
  packageManager := "npm"
  dirExists := false
  overwriteAnswer := true
  copyOutcome := fun _ => CopyOutcome.ok
  componentInstallFails := fun _ => false
  sharedInstallFails := false
  bulkInstallFails := false
  gitInitFails := false

/-- Like `benignWorld`, but the target directory already exists and the user
declines the overwrite confirmation. -/
def cancelledWorld : World :=
  { benignWorld with dirExists := true, overwriteAnswer := false }

/-- Like `benignWorld`, but every per-component package install fails. -/
def failingInstallWorld : World :=
  { benignWorld with componentInstallFails := fun _ => true }

/-- The answers of a default `standard` run with project name
`my-chittyapp`. -/
def standardInput : PromptInput :=
  ⟨"my-chittyapp", InstallationType.standard, [], true, true, false⟩

/-! ## Theorems -/

/-- Decimal rendering of a one-digit number is the single digit character. -/
theorem toDigits_single (n : Nat) (h : n < 10) :
    Nat.toDigits 10 n = [Nat.digitChar n] := by
  have h1 : n % 10 = n := Nat.mod_eq_of_lt h
  have h2 : n / 10 = 0 := Nat.div_eq_of_lt h
  simp [Nat.toDigits, Nat.toDigitsCore, h1, h2]

/-- Decimal rendering of a two-digit number is its two digit characters. -/
theorem toDigits_double (n : Nat) (h1 : 10 ≤ n) (h2 : n < 100) :
    Nat.toDigits 10 n = [Nat.digitChar (n / 10), Nat.digitChar (n % 10)] := by
  obtain ⟨m, rfl⟩ : ∃ m, n = m + 1 := ⟨n - 1, by omega⟩
  have hq1 : ¬((m + 1) / 10 = 0) := by omega
  have hq2 : (m + 1) / 10 / 10 = 0 := by omega
  have hq3 : (m + 1) / 10 % 10 = (m + 1) / 10 := Nat.mod_eq_of_lt (by omega)
  simp [Nat.toDigits, Nat.toDigitsCore, hq1, hq2, hq3]

/-- C3 (counterexample): the claim states that every version string with major
version at least 18 passes the check, but `v100.0.0` has major 100 ≥ 18 and is
rejected by the regex `/^v(1[89]|[2-9]\d)/`. -/
theorem C3_counterexample :
    18 ≤ 100 ∧ versionCheckPasses (mkNodeVersion 100 0 0) = false := by
  decide

/-- C3 (amended): for every version string `v<major>.<minor>.<patch>` whose
major version has at most two decimal digits (major ≤ 99), the environment
check passes exactly when the major version is at least 18; majors with three
or more digits are not all accepted (see the counterexample `v100.0.0`). -/
theorem C3_versionGate (major minor patch : Nat) (h : major ≤ 99) :
    versionCheckPasses (mkNodeVersion major minor patch) = true ↔ 18 ≤ major := by
  rcases Nat.lt_or_ge major 10 with h1 | h1
  · rw [mkNodeVersion, toDigits_single major h1]
    interval_cases major <;>
      (simp only [List.cons_append, List.nil_append, versionCheckPasses]; decide)
  · rw [mkNodeVersion, toDigits_double major h1 (by omega)]
    obtain ⟨q, r, hq1, hq9, hr9, rfl⟩ :
        ∃ q r, 1 ≤ q ∧ q ≤ 9 ∧ r ≤ 9 ∧ major = 10 * q + r :=
      ⟨major / 10, major % 10, by omega, by omega, by omega, by omega⟩
    interval_cases q <;> interval_cases r <;>
      (simp only [List.cons_append, List.nil_append, versionCheckPasses]; decide)

/-- C3 (witness): at the concrete version `v18.0.0` the amended theorem
applies and the gate passes. -/
theorem C3_versionGate_witness :
    versionCheckPasses (mkNodeVersion 18 0 0) = true :=
  (C3_versionGate 18 0 0 (by decide)).mpr (by decide)

/-- C4: for each fixed tier in {minimal, standard, full} the component list
stored in the configuration equals the fixed table (empty list; the two
default components; all seven known components), regardless of every other
answer. -/
theorem C4_tierTable (name : String) (sel : List String) (db auth dk : Bool) :
    (promptConfiguration ⟨name, InstallationType.minimal, sel, db, auth, dk⟩).apps = [] ∧
    (promptConfiguration ⟨name, InstallationType.standard, sel, db, auth, dk⟩).apps =
      ["chittyresolution", "chittychronicle"] ∧
    (promptConfiguration ⟨name, InstallationType.full, sel, db, auth, dk⟩).apps =
      ["chittyresolution", "chittychronicle", "chittyevidence", "chittyflow",
       "chittyintel", "chittytrace", "chittycloude-mcp"] ∧
    (promptConfiguration ⟨name, InstallationType.full, sel, db, auth, dk⟩).apps.length = 7 :=
  ⟨rfl, rfl, rfl, rfl⟩

/-- C5: under the `custom` tier the stored component list is exactly the list
the checkbox prompt returned — nothing added, nothing removed, order kept —
and the checkbox question's `when` predicate holds exactly for the `custom`
tier. -/
theorem C5_customSelection (name : String) (sel : List String) (db auth dk : Bool) :
    (promptConfiguration ⟨name, InstallationType.custom, sel, db, auth, dk⟩).apps = sel ∧
    (∀ t : InstallationType, appsQuestionWhen t = true ↔ t = InstallationType.custom) := by
  refine ⟨rfl, fun t => ?_⟩
  cases t <;> simp [appsQuestionWhen]

/-- C1: the claim says declining the overwrite aborts the pipeline before any
later stage. In the code the `catch` of `checkExistingInstallation` rethrows
only when the message does NOT contain `'cancelled'`, so the thrown
`Error('Installation cancelled')` is swallowed: the stage returns without
error, every later stage runs, and `package.json` and the generated config
module are written under the pre-existing target directory. -/
theorem C1_cancellationSwallowed :
    (checkExistingInstallation (promptConfiguration standardInput) cancelledWorld).error
      = none ∧
    (runPipeline standardInput cancelledWorld).error = none ∧
    Event.writeFile "my-chittyapp/package.json" (FileContent.packageJson "my-chittyapp")
      ∈ (runPipeline standardInput cancelledWorld).events ∧
    Event.writeFile "src/chitty.config.ts"
        (FileContent.chittyConfig ["chittyresolution", "chittychronicle"] true true false)
      ∈ (runPipeline standardInput cancelledWorld).events ∧
    Event.rmDir "my-chittyapp" ∉ (runPipeline standardInput cancelledWorld).events := by
  decide

/-- C2 (counterexample): the claim says a `minimal` installation skips all
three optional sub-generators regardless of the toggles; but with
`includeDatabase = true` the database sub-generator runs and writes `.env`. -/
theorem C2_counterexample :
    (promptConfiguration ⟨"my-chittyapp", InstallationType.minimal, [], true, true, false⟩).apps
      = [] ∧
    Event.writeFile ".env" FileContent.envFile ∈
      (configureIntegration
        (promptConfiguration ⟨"my-chittyapp", InstallationType.minimal, [], true, true, false⟩)
        benignWorld).events := by
  decide

/-- C2 (amended): for a `minimal` installation the component list is empty
and no per-component install is attempted, but each of the three optional
sub-generators runs exactly when its own feature toggle is true — the toggles
are honored independently of the tier. -/
theorem C2_minimalBehavior (inp : PromptInput) (w : World)
    (h : inp.installationType = InstallationType.minimal) :
    (promptConfiguration inp).apps = [] ∧
    (∀ e ∈ (configureIntegration (promptConfiguration inp) w).events,
        isComponentInstallEvent e = false) ∧
    (Event.writeFile ".env" FileContent.envFile ∈
        (configureIntegration (promptConfiguration inp) w).events ↔
      inp.includeDatabase = true) ∧
    (Event.writeFile "src/auth/config.ts" FileContent.authConfig ∈
        (configureIntegration (promptConfiguration inp) w).events ↔
      inp.includeAuth = true) ∧
    (Event.writeFile "Dockerfile" FileContent.dockerfile ∈
        (configureIntegration (promptConfiguration inp) w).events ↔
      inp.includeDocker = true) := by
  obtain ⟨name, t, sel, db, auth, dk⟩ := inp
  simp only at h
  subst h
  cases db <;> cases auth <;> cases dk <;>
    simp [promptConfiguration, configureIntegration, setupDatabase,
      setupAuthentication, generateDockerConfig, isComponentInstallEvent,
      appsQuestionWhen]

/-- C2 (witness): the amended theorem applies to a concrete minimal input. -/
theorem C2_minimalBehavior_witness :
    (promptConfiguration
      ⟨"demo", InstallationType.minimal, [], false, false, false⟩).apps = [] :=
  (C2_minimalBehavior ⟨"demo", InstallationType.minimal, [], false, false, false⟩
    benignWorld rfl).1

/-- Every event of the per-component install loop is a subprocess call or a
warning, never a file write. -/
theorem installApps_no_writes (w : World) (pm : String) (apps : List String) :
    ∀ e ∈ installApps w pm apps, isWriteEvent e = false := by
  induction apps with
  | nil => simp [installApps]
  | cons a rest ih =>
    intro e he
    simp only [installApps, List.mem_cons] at he
    rcases he with he | he
    · subst he
      cases hf : w.componentInstallFails a <;> simp [hf, isWriteEvent]
    · exact ih e he

/-- A non-write event does not contribute to `writtenContent`. -/
theorem writtenContent_cons_of_not_write (path : String) (e : Event)
    (rest : List Event) (h : isWriteEvent e = false) :
    writtenContent path (e :: rest) = writtenContent path rest := by
  cases e <;> simp_all [writtenContent, isWriteEvent]

/-- `writtenContent` skips over a block of non-write events. -/
theorem writtenContent_append_of_no_writes (path : String) (xs ys : List Event)
    (h : ∀ e ∈ xs, isWriteEvent e = false) :
    writtenContent path (xs ++ ys) = writtenContent path ys := by
  induction xs with
  | nil => rfl
  | cons e rest ih =>
    rw [List.cons_append,
      writtenContent_cons_of_not_write path e _ (h e (List.mem_cons_self e rest))]
    exact ih fun x hx => h x (List.mem_cons_of_mem e hx)

/-- C6: for every configuration — in particular for all eight combinations of
the three feature toggles — the generated `src/chitty.config.ts` module
embeds `features` booleans equal exactly to the collected `includeDatabase`,
`includeAuth` and `includeDocker` values. -/
theorem C6_featureToggles (cfg : InstallConfig) (w : World) :
    writtenContent "src/chitty.config.ts" (configureIntegration cfg w).events =
      some (FileContent.chittyConfig cfg.apps cfg.includeDatabase cfg.includeAuth
        cfg.includeDocker) := by
  have hnw : ∀ e ∈ (if cfg.apps.length > 0 then
      installApps w w.packageManager cfg.apps else []), isWriteEvent e = false := by
    intro e he
    split at he
    · exact installApps_no_writes w w.packageManager cfg.apps e he
    · simp at he
  show writtenContent "src/chitty.config.ts"
      ((if cfg.apps.length > 0 then installApps w w.packageManager cfg.apps else []) ++
        Event.writeFile "src/chitty.config.ts"
          (FileContent.chittyConfig cfg.apps cfg.includeDatabase cfg.includeAuth
            cfg.includeDocker) :: _) = _
  rw [writtenContent_append_of_no_writes _ _ _ hnw]
  simp [writtenContent]

/-- The element the install loop emits for a selected component is in the
loop's event list. -/
theorem mem_installApps (w : World) (pm : String) (app : String)
    (apps : List String) (h : app ∈ apps) :
    (if w.componentInstallFails app then
       Event.warn ("Could not install " ++ app ++ ", it may need manual setup")
     else Event.exec (installCmd pm ++ " @chittyapps/" ++ app)) ∈
      installApps w pm apps := by
  induction apps with
  | nil => cases h
  | cons a rest ih =>
    simp only [installApps]
    rcases List.mem_cons.mp h with rfl | h2
    · exact List.mem_cons_self _ _
    · exact List.mem_cons_of_mem _ (ih h2)

/-- C8: a failing install of an individual selected component is non-fatal —
the stage still returns without error, the component's failure is logged as a
warning, every other selected component still gets its install attempt, and
the stage proceeds to write the generated configuration module. -/
theorem C8_componentFailuresNonFatal (cfg : InstallConfig) (w : World) :
    (configureIntegration cfg w).error = none ∧
    (∀ app ∈ cfg.apps, w.componentInstallFails app = true →
      Event.warn ("Could not install " ++ app ++ ", it may need manual setup") ∈
        (configureIntegration cfg w).events) ∧
    (∀ app ∈ cfg.apps, w.componentInstallFails app = false →
      Event.exec (installCmd w.packageManager ++ " @chittyapps/" ++ app) ∈
        (configureIntegration cfg w).events) ∧
    Event.writeFile "src/chitty.config.ts"
      (FileContent.chittyConfig cfg.apps cfg.includeDatabase cfg.includeAuth
        cfg.includeDocker) ∈ (configureIntegration cfg w).events := by
  refine ⟨rfl, ?_, ?_, ?_⟩
  · intro app hmem hf
    have h1 := mem_installApps w w.packageManager app cfg.apps hmem
    rw [if_pos hf] at h1
    have hlen : cfg.apps.length > 0 := List.length_pos.mpr (List.ne_nil_of_mem hmem)
    show _ ∈ (if cfg.apps.length > 0 then
      installApps w w.packageManager cfg.apps else []) ++ _ :: _
    rw [if_pos hlen]
    exact List.mem_append_left _ h1
  · intro app hmem hf
    have h1 := mem_installApps w w.packageManager app cfg.apps hmem
    rw [if_neg (by simp [hf])] at h1
    have hlen : cfg.apps.length > 0 := List.length_pos.mpr (List.ne_nil_of_mem hmem)
    show _ ∈ (if cfg.apps.length > 0 then
      installApps w w.packageManager cfg.apps else []) ++ _ :: _
    rw [if_pos hlen]
    exact List.mem_append_left _ h1
  · exact List.mem_append_right _ (List.mem_cons_self _ _)

/-- C8 (witness): with every component install failing, the standard run's
integration stage still returns without error and logs the warning for its
first component. -/
theorem C8_componentFailuresNonFatal_witness :
    (configureIntegration (promptConfiguration standardInput) failingInstallWorld).error
        = none ∧
    Event.warn "Could not install chittyresolution, it may need manual setup" ∈
      (configureIntegration (promptConfiguration standardInput) failingInstallWorld).events :=
  ⟨(C8_componentFailuresNonFatal (promptConfiguration standardInput)
      failingInstallWorld).1,
   (C8_componentFailuresNonFatal (promptConfiguration standardInput)
      failingInstallWorld).2.1 "chittyresolution" (by decide) rfl⟩

/-- C10: the generated configuration module is written after the whole
per-component install loop and carries the full selected component list in
its `apps` array — including components whose individual install failed:
no write happens before the module write, and no install attempt happens
after it. -/
theorem C10_configModuleApps (cfg : InstallConfig) (w : World) :
    ∃ pre post,
      (configureIntegration cfg w).events =
        pre ++ Event.writeFile "src/chitty.config.ts"
          (FileContent.chittyConfig cfg.apps cfg.includeDatabase cfg.includeAuth
            cfg.includeDocker) :: post ∧
      (∀ e ∈ pre, isWriteEvent e = false) ∧
      (∀ e ∈ post, isComponentInstallEvent e = false) := by
  refine ⟨(if cfg.apps.length > 0 then installApps w w.packageManager cfg.apps else []),
    (if cfg.includeDatabase then setupDatabase else []) ++
      (if cfg.includeAuth then setupAuthentication else []) ++
      (if cfg.includeDocker then generateDockerConfig else []), rfl, ?_, ?_⟩
  · intro e he
    split at he
    · exact installApps_no_writes w w.packageManager cfg.apps e he
    · simp at he
  · cases hdb : cfg.includeDatabase <;> cases ha : cfg.includeAuth <;>
      cases hdk : cfg.includeDocker <;>
      simp [setupDatabase, setupAuthentication, generateDockerConfig,
        isComponentInstallEvent]

/-- C10 (witness): concrete instance with every component install failing. -/
theorem C10_configModuleApps_witness :
    ∃ pre post,
      (configureIntegration (promptConfiguration standardInput)
        failingInstallWorld).events =
        pre ++ Event.writeFile "src/chitty.config.ts"
          (FileContent.chittyConfig ["chittyresolution", "chittychronicle"]
            true true false) :: post ∧
      (∀ e ∈ pre, isWriteEvent e = false) ∧
      (∀ e ∈ post, isComponentInstallEvent e = false) :=
  C10_configModuleApps (promptConfiguration standardInput) failingInstallWorld

/-- When no copy fails with a non-`ENOENT` error, the loop returns without
error and copies exactly the present templates, in list order. -/
theorem copyTemplates_no_other (w : World) (fs : List String)
    (h : ∀ f ∈ fs, w.copyOutcome f ≠ CopyOutcome.other) :
    copyTemplates w fs =
      { events := (fs.filter (fun f => w.copyOutcome f == CopyOutcome.ok)).map
          (fun f => Event.copyFile ("templates/" ++ f) f),
        error := none } := by
  induction fs with
  | nil => rfl
  | cons f rest ih =>
    have hf := h f (List.mem_cons_self f rest)
    have hrest : ∀ g ∈ rest, w.copyOutcome g ≠ CopyOutcome.other :=
      fun g hg => h g (List.mem_cons_of_mem f hg)
    cases hc : w.copyOutcome f with
    | ok => simp [copyTemplates, hc, ih hrest, List.filter_cons]
    | enoent => simp [copyTemplates, hc, ih hrest, List.filter_cons]
    | other => exact absurd hc hf

/-- If some file's copy fails with a non-`ENOENT` error, the loop throws. -/
theorem copyTemplates_error_of_other (w : World) (fs : List String)
    (h : ∃ f ∈ fs, w.copyOutcome f = CopyOutcome.other) :
    (copyTemplates w fs).error.isSome = true := by
  induction fs with
  | nil => simp at h
  | cons f rest ih =>
    rcases h with ⟨g, hg, hgo⟩
    rcases List.mem_cons.mp hg with rfl | hgr
    · simp [copyTemplates, hgo]
    · cases hc : w.copyOutcome f with
      | ok =>
        simp only [copyTemplates, hc]
        exact ih ⟨g, hgr, hgo⟩
      | enoent =>
        simp only [copyTemplates, hc]
        exact ih ⟨g, hgr, hgo⟩
      | other => simp [copyTemplates, hc]

/-- Every event the copy loop performs is a file copy. -/
theorem copyTemplates_events_are_copies (w : World) (fs : List String) :
    ∀ e ∈ (copyTemplates w fs).events, ∃ s d, e = Event.copyFile s d := by
  induction fs with
  | nil => simp [copyTemplates]
  | cons f rest ih =>
    cases hc : w.copyOutcome f with
    | ok =>
      intro e he
      simp only [copyTemplates, hc, List.mem_cons] at he
      rcases he with rfl | he
      · exact ⟨_, _, rfl⟩
      · exact ih e he
    | enoent =>
      simp only [copyTemplates, hc]
      exact ih
    | other => simp [copyTemplates, hc]

/-- C7: per-file policy of template materialization. If no copy fails with an
error other than `ENOENT`, the stage succeeds and its file copies are exactly
the present templates (absent ones are skipped silently, the loop continues);
if any copy fails with another error, the stage throws and its trailing
directory creation never happens. -/
theorem C7_templateCopyPolicy (w : World) :
    ((∀ f ∈ filesToCopy, w.copyOutcome f ≠ CopyOutcome.other) →
      (setupSharedDependencies w).error = none ∧
      (setupSharedDependencies w).events =
        (filesToCopy.filter (fun f => w.copyOutcome f == CopyOutcome.ok)).map
          (fun f => Event.copyFile ("templates/" ++ f) f) ++
        [Event.mkdir "src", Event.mkdir "public"]) ∧
    ((∃ f ∈ filesToCopy, w.copyOutcome f = CopyOutcome.other) →
      (setupSharedDependencies w).error.isSome = true ∧
      Event.mkdir "src" ∉ (setupSharedDependencies w).events) := by
  constructor
  · intro h
    have hc := copyTemplates_no_other w filesToCopy h
    simp [setupSharedDependencies, hc]
  · intro h
    have herr := copyTemplates_error_of_other w filesToCopy h
    have hev := copyTemplates_events_are_copies w filesToCopy
    rcases he : (copyTemplates w filesToCopy).error with _ | e
    · rw [he] at herr
      simp at herr
    · refine ⟨?_, ?_⟩
      · simp [setupSharedDependencies, he]
      · show Event.mkdir "src" ∉ (setupSharedDependencies w).events
        simp only [setupSharedDependencies, he]
        intro hmem
        rcases hev _ hmem with ⟨s, d, habs⟩
        simp at habs

/-- C7 (witness): with every template present the stage succeeds, and with a
missing plus a permission-failing template both arms apply concretely. -/
theorem C7_templateCopyPolicy_witness :
    (setupSharedDependencies benignWorld).error = none :=
  ((C7_templateCopyPolicy benignWorld).1 (by decide)).1

/-- C9: the dependency checker checks all three required tools — the report
has one pass/fail entry per tool, in order, even when an earlier tool failed
— and exits with code 0 exactly when all three are satisfied, with code 1
otherwise. -/
theorem C9_dependencyChecker (w : DepWorld) :
    dependencyReport w =
      [("node", w.nodeSatisfied), ("npm", w.npmSatisfied), ("git", w.gitSatisfied)] ∧
    (exitCode w = 0 ↔
      w.nodeSatisfied = true ∧ w.npmSatisfied = true ∧ w.gitSatisfied = true) ∧
    (exitCode w = 1 ↔
      ¬(w.nodeSatisfied = true ∧ w.npmSatisfied = true ∧ w.gitSatisfied = true)) := by
  rcases w with ⟨n, p, g⟩
  cases n <;> cases p <;> cases g <;> decide

end ChittyStandard
